import Mathlib

/-!
# HippoSync frontend — verification of the specification's claims

Shallow embedding of the client-side logic of the HippoSync chat
application (files `src/frontend/src/components/Signup.jsx`,
`EmailVerifiedPage.jsx`, `Chat.jsx` and `src/frontend/src/api.js`),
together with proofs settling the claims about validation, the signup
submit flow, the email-verification guard, the chat-shell state
transitions, and the auth-token/header invariant.

Strings are modelled as Lean `String` (lists of Unicode code points).
JavaScript's `String.prototype.toLowerCase` is modelled on the ASCII
range (`Char.toLower`), which is exact for every constant the code
compares against (domains, common passwords, sequential runs).
`password.length` counts code points rather than UTF-16 code units;
this is exact on the Basic Multilingual Plane.
-/

namespace HippoSync

/-- JavaScript regex `\s` (whitespace class), by code point. -/
def isJsSpace (c : Char) : Bool :=
  c.val == 9 || c.val == 10 || c.val == 11 || c.val == 12 || c.val == 13 ||
  c.val == 32 || c.val == 0xa0 || c.val == 0x1680 ||
  (0x2000 ≤ c.val && c.val ≤ 0x200a) ||
  c.val == 0x2028 || c.val == 0x2029 || c.val == 0x202f ||
  c.val == 0x205f || c.val == 0x3000 || c.val == 0xfeff

/-- A character admitted by the regex class `[^\s@]` of the email format
regex in `Signup.jsx`. -/
def okEmailChar (c : Char) : Bool :=
  !(isJsSpace c) && c != '@'

/-- JavaScript `str.split('@')`, on the character list of the string:
splits into the (possibly empty) segments between occurrences of `'@'`.
`"".split('@')` is `[""]`, `"a@".split('@')` is `["a", ""]`. -/
def splitOnAt : List Char → List (List Char)
  | [] => [[]]
  | c :: cs =>
    let r := splitOnAt cs
    if c = '@' then [] :: r
    else
      match r with
      | [] => [[c]]
      | h :: t => (c :: h) :: t

/-- `needle.isPrefixOf hay` on character lists (used to implement
JavaScript `String.prototype.includes`). -/
def charsPrefix : List Char → List Char → Bool
  | [], _ => true
  | _ :: _, [] => false
  | a :: as, b :: bs => a == b && charsPrefix as bs

/-- JavaScript `hay.includes(needle)` on character lists: `needle`
occurs as a contiguous substring of `hay`. -/
def charsInfix (needle : List Char) : List Char → Bool
  | [] => needle.isEmpty
  | b :: bs => charsPrefix needle (b :: bs) || charsInfix needle bs

/-- JavaScript `hay.includes(needle)` on strings. -/
def jsIncludes (hay needle : String) : Bool :=
  charsInfix needle.data hay.data

/-- The domain part of the email regex, `[^\s@]+\.[^\s@]+`: every
character in the class and a dot that is neither the first nor the
last character (equivalently, a dot strictly inside). -/
def hasInteriorDot (dom : List Char) : Bool :=
  ((dom.drop 1).dropLast).contains '.'

/-- The email format regex of `Signup.jsx`,
`/^[^\s@]+@[^\s@]+\.[^\s@]+$/`: both character classes exclude `'@'`,
so a match has exactly one `'@'`; the local part is a nonempty run of
class characters; the domain part is a nonempty run of class
characters with an interior dot. -/
def emailRegexTest (s : String) : Bool :=
  match splitOnAt s.data with
  | [lp, dom] =>
    !lp.isEmpty && lp.all okEmailChar && dom.all okEmailChar && hasInteriorDot dom
  | _ => false

/-- `DISPOSABLE_DOMAINS` from `Signup.jsx`. -/
def DISPOSABLE_DOMAINS : List String :=
  ["tempmail.com", "throwaway.email", "guerrillamail.com", "mailinator.com",
   "10minutemail.com", "trashmail.com", "fakeinbox.com", "temp-mail.org",
   "yopmail.com", "maildrop.cc", "getnada.com", "sharklasers.com"]

/-- `COMMON_PASSWORDS` from `Signup.jsx`. -/
def COMMON_PASSWORDS : List String :=
  ["password", "123456", "12345678", "qwerty", "abc123", "letmein",
   "password1", "123456789", "12345", "password123", "admin", "welcome"]

/-- `email.split('@')[1]?.toLowerCase()` from `validateEmail`:
the segment after the first `'@'` (up to the next `'@'` or the end),
case-folded; `none` when the string has no `'@'` at all. -/
def extractDomain (email : String) : Option String :=
  ((splitOnAt email.data).get? 1).map (fun d => String.mk (d.map Char.toLower))

/-- Result record of `validateEmail`. -/
structure EmailResult where
  isValid : Bool
  errors : List String
deriving Repr, DecidableEq

/-- Error string of the disposable-domain check. -/
def disposableMsg : String :=
  "Disposable email addresses are not allowed. Please use a legitimate email."

/-- Error string of the test/temporary-domain check. -/
def testDomainMsg : String := "Test or temporary email domains are not allowed"

/-- `validateEmail` from `Signup.jsx`: empty check, format regex,
domain extraction, then the three accumulating domain checks
(disposable set, test/example/temp substrings, missing dot). -/
def validateEmail (email : String) : EmailResult :=
  if email = "" then
    { isValid := false, errors := ["Email is required"] }
  else if !(emailRegexTest email) then
    { isValid := false, errors := ["Invalid email format"] }
  else
    match extractDomain email with
    | none => { isValid := false, errors := ["Invalid email domain"] }
    | some domain =>
      if domain = "" then
        { isValid := false, errors := ["Invalid email domain"] }
      else
        let errors :=
          (if DISPOSABLE_DOMAINS.contains domain then [disposableMsg] else []) ++
          (if jsIncludes domain "test" || jsIncludes domain "example" ||
              jsIncludes domain "temp" then [testDomainMsg] else []) ++
          (if !(jsIncludes domain ".") then ["Email domain is invalid"] else [])
        { isValid := errors.isEmpty, errors := errors }

/-- One entry of the `checks` record of `validatePassword`. -/
structure Check where
  passed : Bool
  label : String
  error : String
deriving Repr, DecidableEq

/-- The `checks` record of `validatePassword`, in the key order of the
object literal (which is the order `Object.values` enumerates). -/
structure PasswordChecks where
  length : Check
  uppercase : Check
  lowercase : Check
  number : Check
  special : Check
  common : Check
  sequential : Check
  repeated : Check
deriving Repr, DecidableEq

/-- `Object.values(checks)` in insertion order. -/
def PasswordChecks.values (c : PasswordChecks) : List Check :=
  [c.length, c.uppercase, c.lowercase, c.number, c.special,
   c.common, c.sequential, c.repeated]

/-- Result record of `validatePassword`. -/
structure PasswordResult where
  isValid : Bool
  checks : PasswordChecks
  errors : List String
deriving Repr, DecidableEq

/-- The initial `checks` object literal of `validatePassword`. -/
def initChecks : PasswordChecks :=
  { length := { passed := false, label := "At least 8 characters", error := "" }
    uppercase := { passed := false, label := "One uppercase letter", error := "" }
    lowercase := { passed := false, label := "One lowercase letter", error := "" }
    number := { passed := false, label := "One number", error := "" }
    special := { passed := false, label := "One special character (!@#$...)", error := "" }
    common := { passed := true, label := "Not a common password", error := "" }
    sequential := { passed := true, label := "No sequential characters", error := "" }
    repeated := { passed := true, label := "No repeated characters", error := "" } }

/-- The special-character class of `validatePassword`:
`[!@#$%^&*(),.?":{}|<>_\-+=\[\]\\\/;`~]`. -/
def specialChars : List Char :=
  ['!', '@', '#', '$', '%', '^', '&', '*', '(', ')', ',', '.', '?', '\"',
   ':', Char.ofNat 123, Char.ofNat 125, '|', '<', '>', '_', '-', '+', '=',
   '[', ']', '\\', '/', ';', Char.ofNat 96, '~']

/-- The `sequences` array of the sequential-characters check. -/
def sequences : List String :=
  ["123", "234", "345", "456", "567", "678", "789", "abc", "bcd", "cde"]

/-- JavaScript regex `.` without the `s` flag: any character except a
line terminator. -/
def isJsDotChar (c : Char) : Bool :=
  c.val != 10 && c.val != 13 && c.val != 0x2028 && c.val != 0x2029

/-- `/(.)\1{2,}/.test(password)`: some character (other than a line
terminator) occurs at least three times consecutively. -/
def hasTripleRepeat : List Char → Bool
  | a :: b :: c :: rest =>
    (a == b && b == c && isJsDotChar a) || hasTripleRepeat (b :: c :: rest)
  | _ => false

/-- Builds the final `checks` record and the derived `errors`/`isValid`
of `validatePassword` from the eight boolean test outcomes; each
check's `error` field is the message exactly when the check failed
(the code initializes `error` to `''` and assigns the message inside
`if (!passed)`). -/
def assembleChecks (lengthP upperP lowerP numberP specialP commonP seqP repP : Bool) :
    PasswordResult :=
  let checks : PasswordChecks :=
    { length := { passed := lengthP, label := "At least 8 characters", error := if lengthP then "" else "Password must be at least 8 characters" },
      uppercase := { passed := upperP, label := "One uppercase letter", error := if upperP then "" else "Add at least one uppercase letter (A-Z)" },
      lowercase := { passed := lowerP, label := "One lowercase letter", error := if lowerP then "" else "Add at least one lowercase letter (a-z)" },
      number := { passed := numberP, label := "One number", error := if numberP then "" else "Add at least one number (0-9)" },
      special := { passed := specialP, label := "One special character (!@#$...)", error := if specialP then "" else "Add at least one special character" },
      common := { passed := commonP, label := "Not a common password", error := if commonP then "" else "This password is too common" },
      sequential := { passed := seqP, label := "No sequential characters", error := if seqP then "" else "Avoid sequential characters like 123 or abc" },
      repeated := { passed := repP, label := "No repeated characters", error := if repP then "" else "Avoid repeating the same character 3+ times" } }
  let errors := (checks.values.filter (fun c => !c.passed && c.error != "")).map
    (fun c => c.error)
  { isValid := errors.isEmpty, checks := checks, errors := errors }

/-- `validatePassword` from `Signup.jsx`: early return on the empty
password, then the eight independent tests, the `errors` projection
(`Object.values(checks).filter(c => !c.passed && c.error).map(c =>
c.error)`) and `isValid = errors.length === 0`. -/
def validatePassword (password : String) : PasswordResult :=
  if password = "" then
    { isValid := false, checks := initChecks, errors := ["Password is required"] }
  else
    let lower := String.mk (password.data.map Char.toLower)
    assembleChecks
      (decide (password.length ≥ 8))
      (password.data.any (fun c => 'A' ≤ c && c ≤ 'Z'))
      (password.data.any (fun c => 'a' ≤ c && c ≤ 'z'))
      (password.data.any (fun c => '0' ≤ c && c ≤ '9'))
      (password.data.any (fun c => specialChars.contains c))
      (!(COMMON_PASSWORDS.contains lower))
      (!(sequences.any (fun seq => jsIncludes lower seq)))
      (!(hasTripleRepeat password.data))

/-- Observable outcome of the `submit` handler of `Signup.jsx`:
the POST requests issued and the local error, success flag. -/
structure SubmitOutcome where
  posts : List String
  error : Option String
  success : Bool
deriving Repr, DecidableEq

/-- The `submit` handler of `Signup.jsx`: re-validates both fields; if
either validation fails it sets the local validation error and returns
without any network call; otherwise it issues a single
`POST /auth/signup` and reports success, or the server error on a
failed call (`serverOk = false`). -/
def signupSubmit (email password : String) (serverOk : Bool) : SubmitOutcome :=
  let emailVal := validateEmail email
  let passwordVal := validatePassword password
  if !emailVal.isValid || !passwordVal.isValid then
    { posts := [], error := some "Please fix the validation errors before submitting",
      success := false }
  else if serverOk then
    { posts := ["/auth/signup"], error := none, success := true }
  else
    { posts := ["/auth/signup"], error := some "Signup failed. Please try again.",
      success := false }

/-- Component state of `EmailVerifiedPage.jsx` relevant to the
verification effect: the `verificationAttempted` ref, the number of
`GET /auth/verify-email` requests issued so far, and the
`status`/`message` state. -/
structure VerifyState where
  attempted : Bool
  calls : Nat
  status : String
  message : String
deriving Repr, DecidableEq

/-- Initial state of `EmailVerifiedPage.jsx` (`useRef(false)`,
`useState('verifying')`, `useState('')`). -/
def initVerifyState : VerifyState :=
  { attempted := false, calls := 0, status := "verifying", message := "" }

/-- One run of the `verifyEmail` effect body of `EmailVerifiedPage.jsx`
up to the point where the verification request has been issued but not
yet resolved: the guard returns unchanged when `verificationAttempted`
is already set; otherwise it sets the ref, and either reports the
missing-token error (no request) or issues the single GET. -/
def verifyEffectStep (token : Option String) (s : VerifyState) : VerifyState :=
  if s.attempted then s
  else
    let s := { s with attempted := true }
    match token with
    | none =>
      { s with status := "error",
               message := "Invalid verification link. Token is missing." }
    | some _ => { s with calls := s.calls + 1 }

/-- The `address` object of the reverse-geocoding response used by
`requestLocation` in `Signup.jsx`; absent fields are `none`
(JavaScript `undefined`), and the empty string is falsy like
`undefined` is. -/
structure Address where
  city : Option String
  town : Option String
  village : Option String
  state : Option String
  country : Option String
deriving Repr, DecidableEq

/-- JavaScript `a || b` on an optional string `a` and string `b`:
`a`'s value when it is truthy (present and nonempty), else `b`. -/
def jsOrElse (a : Option String) (b : String) : String :=
  match a with
  | some s => if s = "" then b else s
  | none => b

/-- The location record built by `requestLocation` in `Signup.jsx`. -/
structure LocationInfo where
  city : String
  state : String
  country : String
  latitude : String
  longitude : String
  timezone : String
  formatted : String
deriving Repr, DecidableEq

/-- The success branch of `requestLocation` in `Signup.jsx`:
`city = addr.city || addr.town || addr.village || 'Unknown'`,
`state = addr.state || ''`, `country = addr.country || ''`, and
`formatted` built from the template
`` `${city}${state ? ', ' + state : ''}${country ? ', ' + country : ''}` ``. -/
def buildLocation (addr : Address) (lat lon tz : String) : LocationInfo :=
  let city := jsOrElse addr.city (jsOrElse addr.town (jsOrElse addr.village "Unknown"))
  let state := jsOrElse addr.state ""
  let country := jsOrElse addr.country ""
  { city := city, state := state, country := country,
    latitude := lat, longitude := lon, timezone := tz,
    formatted := city ++ (if state != "" then ", " ++ state else "") ++
                 (if country != "" then ", " ++ country else "") }

/-- A thread record as held by `Chat.jsx` (`{id, title}` fields the
claims depend on). -/
structure Thread where
  id : Nat
  title : String
deriving Repr, DecidableEq

/-- A display message of `Chat.jsx`: `{role, content}` or
`{role, type: 'file', filename}`. -/
inductive ChatMsg where
  | text (role : String) (content : String)
  | file (role : String) (filename : String)
deriving Repr, DecidableEq

/-- Component state of `Chat.jsx` relevant to the claims: the selected
thread, the displayed message list, and the durable
`localStorage['last-thread']` record. -/
structure ChatState where
  thread : Option Thread
  messages : List ChatMsg
  lastThread : Option Thread
deriving Repr, DecidableEq

/-- Result of one chat-shell action: the new state, the backend
requests issued, and the alerts shown. -/
structure ActionResult where
  state : ChatState
  calls : List String
  alerts : List String
deriving Repr, DecidableEq

/-- `deleteChat` from `Chat.jsx`: alerts and returns when no thread is
selected; returns silently when the confirm dialog is declined;
otherwise issues the DELETE and, on success, clears the selection, the
message list, and the durable `last-thread` record; on failure only
alerts. -/
def deleteChat (confirmed : Bool) (backendOk : Bool) (s : ChatState) : ActionResult :=
  match s.thread with
  | none => { state := s, calls := [], alerts := ["No chat selected"] }
  | some t =>
    if !confirmed then { state := s, calls := [], alerts := [] }
    else if backendOk then
      { state := { thread := none, messages := [], lastThread := none },
        calls := ["DELETE /threads/" ++ toString t.id],
        alerts := ["Chat deleted"] }
    else
      { state := s, calls := ["DELETE /threads/" ++ toString t.id],
        alerts := ["Delete failed"] }

/-- `renameChat` from `Chat.jsx`: alerts and returns when no thread is
selected; returns silently when the prompt is cancelled, empty, or
unchanged; otherwise issues the PUT and, on success, updates the
selection and the durable record. `newTitle = none` is a cancelled
prompt; `some ""` is an empty entry (both falsy in `!newTitle`). -/
def renameChat (newTitle : Option String) (backendOk : Bool) (s : ChatState) :
    ActionResult :=
  match s.thread with
  | none => { state := s, calls := [], alerts := ["No chat selected"] }
  | some t =>
    match newTitle with
    | none => { state := s, calls := [], alerts := [] }
    | some nt =>
      if nt = "" || nt = t.title then { state := s, calls := [], alerts := [] }
      else if backendOk then
        let updated : Thread := { t with title := nt }
        { state := { s with thread := some updated, lastThread := some updated },
          calls := ["PUT /threads/" ++ toString t.id],
          alerts := ["Chat renamed"] }
      else
        { state := s, calls := ["PUT /threads/" ++ toString t.id],
          alerts := ["Rename failed"] }

/-- An observable event of the `send` handler of `Chat.jsx`, in the
order it happens: a message appended to the local list, or an HTTP
POST issued. -/
inductive ChatEvent where
  | append (m : ChatMsg)
  | post (endpoint : String)
deriving Repr, DecidableEq

/-- The thread-resolution prefix of `send` in `Chat.jsx`: use the
selected thread; else resurrect `localStorage['last-thread']`; else
create a new thread via `POST /threads` (whose response is the
`newThread` parameter). Returns the thread used, the updated state,
and the requests issued. -/
def resolveThread (s0 : ChatState) (newThread : Thread) :
    Thread × ChatState × List ChatEvent :=
  match s0.thread with
  | some t => (t, s0, [])
  | none =>
    match s0.lastThread with
    | some t => (t, { s0 with thread := some t }, [])
    | none =>
      (newThread,
       { s0 with thread := some newThread, lastThread := some newThread },
       [ChatEvent.post "/threads"])

/-- The optimistic entries `send` appends before the relay call:
the text message when `text` is truthy, then the file placeholder when
a file is attached. -/
def optimisticMsgs (text : String) (file : Option String) : List ChatMsg :=
  (if text != "" then [ChatMsg.text "user" text] else []) ++
  (match file with
   | some fn => [ChatMsg.file "user" fn]
   | none => [])

/-- The inline error `send` appends when the relay call fails. -/
def sendErrorMsg : ChatMsg := ChatMsg.text "assistant" "❌ Error processing your message."

/-- The `send` handler of `Chat.jsx`: resolves a thread, appends the
optimistic user entries, issues the `POST /chat` relay call, and
appends the assistant reply (`reply = some r`) or the inline error
message (`reply = none`, the catch branch); the optimistic entries are
never removed. -/
def send (text : String) (file : Option String) (newThread : Thread)
    (reply : Option String) (s0 : ChatState) : ChatState × List ChatEvent :=
  let r := resolveThread s0 newThread
  let s1 := r.2.1
  let opt := optimisticMsgs text file
  let s2 : ChatState := { s1 with messages := s1.messages ++ opt }
  let replyMsg := match reply with
    | some rp => ChatMsg.text "assistant" rp
    | none => sendErrorMsg
  ({ s2 with messages := s2.messages ++ [replyMsg] },
   r.2.2 ++ opt.map ChatEvent.append ++
     [ChatEvent.post "/chat", ChatEvent.append replyMsg])

/-- The process-wide auth state of `api.js`: the durable
`localStorage['token']` entry and the default `Authorization` header
of the request client. -/
structure AuthState where
  storedToken : Option String
  authHeader : Option String
deriving Repr, DecidableEq

/-- `setAuth` from `api.js`: a truthy token (non-null, nonempty) sets
the default header to `Bearer <token>` and stores the token; a falsy
one (null, or the empty string) deletes the header and removes the
stored token. Both branches overwrite both fields, so the prior state
is irrelevant. -/
def setAuth (token : Option String) (_s : AuthState) : AuthState :=
  match token with
  | some t =>
    if t = "" then { storedToken := none, authHeader := none }
    else { storedToken := some t, authHeader := some ("Bearer " ++ t) }
  | none => { storedToken := none, authHeader := none }

/-- The claim's reading of the city fallback: the first present,
nonempty value in the list, else the default. -/
def firstNonEmpty : List (Option String) → String → String
  | [], d => d
  | some s :: rest, d => if s ≠ "" then s else firstNonEmpty rest d
  | none :: rest, d => firstNonEmpty rest d

/-- The claim's reading of the formatted string: the parts joined with
`", "`. -/
def joinComma : List String → String
  | [] => ""
  | [x] => x
  | x :: xs => x ++ ", " ++ joinComma xs

/-- All eight password checks passed simultaneously. -/
def allChecksPassed (c : PasswordChecks) : Bool :=
  c.length.passed && c.uppercase.passed && c.lowercase.passed &&
  c.number.passed && c.special.passed && c.common.passed &&
  c.sequential.passed && c.repeated.passed

/-! ## Theorems -/

/-- Left cancellation for string concatenation. -/
theorem stringAppend_left_cancel {a b c : String} (h : a ++ b = a ++ c) : b = c := by
  have hd : (a ++ b).data = (a ++ c).data := congrArg String.data h
  simp only [String.data_append] at hd
  have h2 := List.append_cancel_left hd
  cases b; cases c; exact congrArg String.mk h2

/-- C1: the signup submit handler issues no request and sets the local
validation error when either validation fails, and issues exactly the
single `POST /auth/signup` when both pass. -/
theorem C1_signup_submit_gating (email password : String) (serverOk : Bool) :
    ((validateEmail email).isValid = false ∨ (validatePassword password).isValid = false →
      (signupSubmit email password serverOk).posts = [] ∧
      (signupSubmit email password serverOk).error =
        some "Please fix the validation errors before submitting") ∧
    ((validateEmail email).isValid = true → (validatePassword password).isValid = true →
      (signupSubmit email password serverOk).posts = ["/auth/signup"]) := by
  constructor
  · intro h
    rcases h with h | h <;> simp [signupSubmit, h]
  · intro he hp
    cases serverOk <;> simp [signupSubmit, he, hp]

/-- Witness for C1 at a valid pair and an invalid pair. -/
theorem C1_signup_submit_gating_witness :
    (signupSubmit "a@b.com" "Xk9!qwzp" true).posts = ["/auth/signup"] ∧
    (signupSubmit "@tempmail.com" "Xk9!qwzp" true).posts = [] := by
  constructor
  · exact (C1_signup_submit_gating "a@b.com" "Xk9!qwzp" true).2 (by decide) (by decide)
  · exact ((C1_signup_submit_gating "@tempmail.com" "Xk9!qwzp" true).1
      (Or.inl (by decide))).1

/-- C2 counterexample: on `"abc12345"` the sequential-characters check
also fails (the string contains `"abc"`, `"123"`, `"234"`, `"345"`),
so more than the uppercase and special-character checks fail and a
third error string appears. -/
theorem C2_counterexample :
    (validatePassword "abc12345").checks.sequential.passed = false ∧
    "Avoid sequential characters like 123 or abc" ∈ (validatePassword "abc12345").errors ∧
    (validatePassword "abc12345").errors ≠
      ["Add at least one uppercase letter (A-Z)", "Add at least one special character"] := by
  decide

/-- C2 (amended): `validatePassword "abc12345"` fails exactly the
uppercase, special-character and sequential checks; `isValid` is
false; exactly those three error strings appear. -/
theorem C2_abc12345_checks :
    (validatePassword "abc12345").isValid = false ∧
    (validatePassword "abc12345").checks.uppercase.passed = false ∧
    (validatePassword "abc12345").checks.special.passed = false ∧
    (validatePassword "abc12345").checks.sequential.passed = false ∧
    (validatePassword "abc12345").checks.length.passed = true ∧
    (validatePassword "abc12345").checks.lowercase.passed = true ∧
    (validatePassword "abc12345").checks.number.passed = true ∧
    (validatePassword "abc12345").checks.common.passed = true ∧
    (validatePassword "abc12345").checks.repeated.passed = true ∧
    (validatePassword "abc12345").errors =
      ["Add at least one uppercase letter (A-Z)",
       "Add at least one special character",
       "Avoid sequential characters like 123 or abc"] := by
  decide

/-- C9: after any `setAuth` call, a non-empty token is stored and
reflected as `Bearer <token>` in the default header, a null token
clears both, and stored token and header are in bijective sync. -/
theorem C9_setAuth_sync (t : Option String) (s : AuthState) :
    (∀ tok, t = some tok → tok ≠ "" →
      (setAuth t s).storedToken = some tok ∧
      (setAuth t s).authHeader = some ("Bearer " ++ tok)) ∧
    (t = none → (setAuth t s).storedToken = none ∧ (setAuth t s).authHeader = none) ∧
    (∀ tok, (setAuth t s).storedToken = some tok ↔
      (setAuth t s).authHeader = some ("Bearer " ++ tok)) := by
  refine ⟨?_, ?_, ?_⟩
  · rintro tok rfl hne
    simp [setAuth, hne]
  · rintro rfl
    simp [setAuth]
  · intro tok
    match t with
    | none => simp [setAuth]
    | some u =>
      by_cases hu : u = "" <;> simp [setAuth, hu]
      constructor
      · rintro rfl; rfl
      · intro h; exact stringAppend_left_cancel h

/-- Witness for C9 at a concrete token and at null. -/
theorem C9_setAuth_sync_witness :
    (setAuth (some "abc") ⟨none, none⟩).storedToken = some "abc" ∧
    (setAuth (some "abc") ⟨none, none⟩).authHeader = some ("Bearer " ++ "abc") ∧
    (setAuth none ⟨some "x", some "Bearer x"⟩).storedToken = none ∧
    (setAuth none ⟨some "x", some "Bearer x"⟩).authHeader = none := by
  have h1 := (C9_setAuth_sync (some "abc") ⟨none, none⟩).1 "abc" rfl (by decide)
  have h2 := (C9_setAuth_sync none ⟨some "x", some "Bearer x"⟩).2.1 rfl
  exact ⟨h1.1, h1.2, h2.1, h2.2⟩

/-- A state with the guard ref already set is a fixed point of the
verification effect. -/
theorem verifyStep_fixed (token : Option String) (s : VerifyState)
    (h : s.attempted = true) : verifyEffectStep token s = s := by
  simp [verifyEffectStep, h]

/-- Iterating the effect from a guarded state changes nothing. -/
theorem verifyStep_iterate_fixed (token : Option String) (s : VerifyState)
    (h : s.attempted = true) : ∀ n, (verifyEffectStep token)^[n] s = s := by
  intro n
  induction n with
  | zero => rfl
  | succ m ih => rw [Function.iterate_succ_apply, verifyStep_fixed token s h, ih]

/-- C3: however many times the verification effect re-runs before the
call resolves, at most one `GET /auth/verify-email` is issued; with no
token in the query string, no call is made and (once the effect has
run at least once) the missing-token error is reported. -/
theorem C3_verify_email_guard (token : Option String) (n : Nat) :
    ((verifyEffectStep token)^[n] initVerifyState).calls ≤ 1 ∧
    (token = none →
      ((verifyEffectStep token)^[n] initVerifyState).calls = 0 ∧
      (1 ≤ n → ((verifyEffectStep token)^[n] initVerifyState).message =
        "Invalid verification link. Token is missing.")) := by
  cases n with
  | zero => simp [initVerifyState]
  | succ m =>
    have hstep : ((verifyEffectStep token) initVerifyState).attempted = true := by
      cases token <;> simp [verifyEffectStep, initVerifyState]
    have h1 : (verifyEffectStep token)^[m + 1] initVerifyState =
        verifyEffectStep token initVerifyState := by
      rw [Function.iterate_succ_apply]
      exact verifyStep_iterate_fixed token _ hstep m
    rw [h1]
    cases token <;> simp [verifyEffectStep, initVerifyState]

/-- Witness for C3: two re-renders with no token issue no call and
show the missing-token message; two re-renders with a token issue at
most one call. -/
theorem C3_verify_email_guard_witness :
    ((verifyEffectStep none)^[2] initVerifyState).calls = 0 ∧
    ((verifyEffectStep none)^[2] initVerifyState).message =
      "Invalid verification link. Token is missing." ∧
    ((verifyEffectStep (some "tok"))^[3] initVerifyState).calls ≤ 1 := by
  have h := (C3_verify_email_guard none 2).2 rfl
  exact ⟨h.1, h.2 (by decide), (C3_verify_email_guard (some "tok") 3).1⟩

/-- The `isValid`/`allChecksPassed` equivalence for the assembled
result, over all eight outcomes. -/
theorem assembleChecks_valid_iff (p1 p2 p3 p4 p5 p6 p7 p8 : Bool) :
    (assembleChecks p1 p2 p3 p4 p5 p6 p7 p8).isValid = true ↔
    allChecksPassed (assembleChecks p1 p2 p3 p4 p5 p6 p7 p8).checks = true := by
  cases p1 <;> cases p2 <;> cases p3 <;> cases p4 <;>
    cases p5 <;> cases p6 <;> cases p7 <;> cases p8 <;> decide

/-- C5: for every password, `validatePassword` reports `isValid` true
exactly when all eight checks pass simultaneously. -/
theorem C5_isValid_iff_all_checks (password : String) :
    (validatePassword password).isValid = true ↔
    allChecksPassed (validatePassword password).checks = true := by
  by_cases h : password = ""
  · subst h; decide
  · unfold validatePassword
    rw [if_neg h]
    exact assembleChecks_valid_iff _ _ _ _ _ _ _ _

/-- C7: deleting the selected thread (confirmed, backend success)
clears the selection, the message list, and the durable last-thread
record; with no selection, delete and rename issue no request, change
no state, and only alert. -/
theorem C7_thread_actions (s : ChatState) (nt : Option String) (c b : Bool) :
    (s.thread.isSome = true →
      (deleteChat true true s).state.thread = none ∧
      (deleteChat true true s).state.messages = [] ∧
      (deleteChat true true s).state.lastThread = none) ∧
    (s.thread = none →
      deleteChat c b s = { state := s, calls := [], alerts := ["No chat selected"] } ∧
      renameChat nt b s = { state := s, calls := [], alerts := ["No chat selected"] }) := by
  constructor
  · intro h
    match hs : s.thread with
    | some t => simp [deleteChat, hs]
    | none => rw [hs] at h; simp at h
  · intro h
    constructor
    · simp [deleteChat, h]
    · simp [renameChat, h]

/-- Witness for C7 at a concrete selected thread and at no selection. -/
theorem C7_thread_actions_witness :
    (deleteChat true true
      ⟨some ⟨1, "T"⟩, [ChatMsg.text "user" "hi"], some ⟨1, "T"⟩⟩).state.thread = none ∧
    (deleteChat true true
      ⟨some ⟨1, "T"⟩, [ChatMsg.text "user" "hi"], some ⟨1, "T"⟩⟩).state.messages = [] ∧
    (deleteChat true true
      ⟨some ⟨1, "T"⟩, [ChatMsg.text "user" "hi"], some ⟨1, "T"⟩⟩).state.lastThread = none ∧
    renameChat (some "New") false ⟨none, [], none⟩ =
      { state := ⟨none, [], none⟩, calls := [], alerts := ["No chat selected"] } := by
  have h1 := (C7_thread_actions
    ⟨some ⟨1, "T"⟩, [ChatMsg.text "user" "hi"], some ⟨1, "T"⟩⟩ none true true).1 (by decide)
  have h2 := (C7_thread_actions ⟨none, [], none⟩ (some "New") true false).2 rfl
  exact ⟨h1.1, h1.2.1, h1.2.2, h2.2⟩

/-- C8: every send with a message or file appends the optimistic user
entries before the relay `POST /chat` is issued, and on failure the
inline assistant error is appended after them with no rollback of the
optimistic entries. -/
theorem C8_send_optimistic (text : String) (file : Option String) (nt : Thread)
    (reply : Option String) (s0 : ChatState)
    (h : text ≠ "" ∨ file.isSome = true) :
    optimisticMsgs text file ≠ [] ∧
    (∃ pre,
      (send text file nt reply s0).2 =
        pre ++ (optimisticMsgs text file).map ChatEvent.append ++
          [ChatEvent.post "/chat",
           ChatEvent.append (match reply with
             | some rp => ChatMsg.text "assistant" rp
             | none => sendErrorMsg)] ∧
      ChatEvent.post "/chat" ∉ pre) ∧
    (reply = none →
      (send text file nt reply s0).1.messages =
        s0.messages ++ optimisticMsgs text file ++ [sendErrorMsg]) := by
  refine ⟨?_, ?_, ?_⟩
  · rcases h with h | h
    · simp [optimisticMsgs, h]
    · match file, h with
      | some fn, _ => simp [optimisticMsgs]
  · refine ⟨(resolveThread s0 nt).2.2, rfl, ?_⟩
    rcases s0 with ⟨th, ms, lt⟩
    cases th <;> cases lt <;> simp [resolveThread]
  · rintro rfl
    rcases s0 with ⟨th, ms, lt⟩
    cases th <;> cases lt <;> simp [send, resolveThread]

/-- Witness for C8: a text-only send into an empty state on a failing
relay call keeps the optimistic entry and appends the inline error. -/
theorem C8_send_optimistic_witness :
    (send "hi" none ⟨1, "New chat"⟩ none ⟨none, [], none⟩).1.messages =
      [ChatMsg.text "user" "hi", sendErrorMsg] := by
  have h := (C8_send_optimistic "hi" none ⟨1, "New chat"⟩ none ⟨none, [], none⟩
    (Or.inl (by decide))).2.2 rfl
  simpa [optimisticMsgs] using h

/-- The JavaScript `||` fallback chain agrees with taking the first
present, nonempty element. -/
theorem jsOrElse_firstNonEmpty (a : Option String) (l : List (Option String)) (d : String) :
    jsOrElse a (firstNonEmpty l d) = firstNonEmpty (a :: l) d := by
  cases a with
  | none => rfl
  | some s => by_cases hs : s = "" <;> simp [jsOrElse, firstNonEmpty, hs]

/-- A `||` fallback with a nonempty default is nonempty. -/
theorem jsOrElse_ne_empty (a : Option String) (d : String) (hd : d ≠ "") :
    jsOrElse a d ≠ "" := by
  cases a with
  | none => exact hd
  | some s =>
    by_cases hs : s = ""
    · simpa [jsOrElse, hs] using hd
    · simp [jsOrElse, hs]

/-- The formatted-string template equals joining the nonempty parts
with `", "`, given a nonempty city. -/
theorem formatted_join (c st co : String) (hc : c ≠ "") :
    c ++ (if st != "" then ", " ++ st else "") ++ (if co != "" then ", " ++ co else "") =
    joinComma ([c, st, co].filter (fun p => p != "")) := by
  have hcb : (c != "") = true := bne_iff_ne.mpr hc
  by_cases hst : st = "" <;> by_cases hco : co = ""
  · subst hst; subst hco
    simp [hcb, joinComma]
  · subst hst
    have hcob : (co != "") = true := bne_iff_ne.mpr hco
    simp [hcb, hcob, joinComma, String.append_assoc]
  · subst hco
    have hstb : (st != "") = true := bne_iff_ne.mpr hst
    simp [hcb, hstb, joinComma, String.append_assoc]
  · have hstb : (st != "") = true := bne_iff_ne.mpr hst
    have hcob : (co != "") = true := bne_iff_ne.mpr hco
    simp [hcb, hstb, hcob, joinComma, String.append_assoc]

/-- C6: the location record's city is the first nonempty value among
`address.city`, `address.town`, `address.village` with fallback
`"Unknown"`, and the formatted string is the nonempty parts among
city, state, country joined with `", "`. -/
theorem C6_location_record (addr : Address) (lat lon tz : String) :
    (buildLocation addr lat lon tz).city =
      firstNonEmpty [addr.city, addr.town, addr.village] "Unknown" ∧
    (buildLocation addr lat lon tz).formatted =
      joinComma ([(buildLocation addr lat lon tz).city,
                  (buildLocation addr lat lon tz).state,
                  (buildLocation addr lat lon tz).country].filter (fun p => p != "")) := by
  have hne : jsOrElse addr.city (jsOrElse addr.town (jsOrElse addr.village "Unknown")) ≠ "" :=
    jsOrElse_ne_empty _ _ (jsOrElse_ne_empty _ _ (jsOrElse_ne_empty _ _ (by decide)))
  constructor
  · rw [← jsOrElse_firstNonEmpty addr.city [addr.town, addr.village] "Unknown",
        ← jsOrElse_firstNonEmpty addr.town [addr.village] "Unknown",
        ← jsOrElse_firstNonEmpty addr.village [] "Unknown"]
    rfl
  · exact formatted_join _ _ _ hne

/-- Splitting a list without `'@'` yields the single segment. -/
theorem splitOnAt_no_at {l : List Char} (h : '@' ∉ l) : splitOnAt l = [l] := by
  induction l with
  | nil => rfl
  | cons c cs ih =>
    have hc : c ≠ '@' := fun he => h (he ▸ List.mem_cons_self c cs)
    have hcs : '@' ∉ cs := fun hm => h (List.mem_cons_of_mem _ hm)
    simp [splitOnAt, hc, ih hcs]

/-- Splitting around a single `'@'` yields the two segments. -/
theorem splitOnAt_single {l r : List Char} (hl : '@' ∉ l) (hr : '@' ∉ r) :
    splitOnAt (l ++ '@' :: r) = [l, r] := by
  induction l with
  | nil => simp [splitOnAt, splitOnAt_no_at hr]
  | cons c cs ih =>
    have hc : c ≠ '@' := fun he => hl (he ▸ List.mem_cons_self c cs)
    have hcs : '@' ∉ cs := fun hm => hl (List.mem_cons_of_mem _ hm)
    simp [splitOnAt, hc, ih hcs]

/-- Inversion of a successful format-regex test. -/
theorem emailRegexTest_inv {email : String} (h : emailRegexTest email = true) :
    ∃ lp dom, splitOnAt email.data = [lp, dom] ∧ lp ≠ [] ∧
      lp.all okEmailChar = true ∧ dom.all okEmailChar = true ∧
      hasInteriorDot dom = true := by
  unfold emailRegexTest at h
  cases hs : splitOnAt email.data with
  | nil => rw [hs] at h; simp at h
  | cons lp tl =>
    cases tl with
    | nil => rw [hs] at h; simp at h
    | cons dom tl2 =>
      cases tl2 with
      | cons x xs => rw [hs] at h; simp at h
      | nil =>
        rw [hs] at h
        simp only [Bool.and_eq_true, Bool.not_eq_true'] at h
        refine ⟨lp, dom, rfl, ?_, h.1.1.2, h.1.2, h.2⟩
        intro hnil
        subst hnil
        simp at h

/-- An interior dot is in particular a dot. -/
theorem interiorDot_mem {dom : List Char} (h : hasInteriorDot dom = true) :
    '.' ∈ dom := by
  unfold hasInteriorDot at h
  have h1 : '.' ∈ (dom.drop 1).dropLast := by simpa using h
  exact List.drop_subset 1 dom (List.dropLast_subset _ h1)

/-- A one-character `includes` is exactly membership. -/
theorem charsInfix_singleton_iff (c : Char) (l : List Char) :
    charsInfix [c] l = true ↔ c ∈ l := by
  induction l with
  | nil => simp [charsInfix]
  | cons b bs ih => simp [charsInfix, charsPrefix, ih]

/-- C10: the missing-dot error string appears in no `validateEmail`
result: every email passing the format regex has an extracted domain
containing a dot, so the missing-dot branch is unreachable. -/
theorem C10_missing_dot_unreachable (email : String) :
    "Email domain is invalid" ∉ (validateEmail email).errors ∧
    (emailRegexTest email = true →
      ∀ d, extractDomain email = some d → d.data.contains '.' = true) := by
  by_cases h0 : email = ""
  · subst h0
    exact ⟨by decide, by intro h; exact absurd h (by decide)⟩
  · by_cases h1 : emailRegexTest email = true
    · obtain ⟨lp, dom, hsplit, hlp, hlpok, hdomok, hdot⟩ := emailRegexTest_inv h1
      have hdotmem : '.' ∈ dom := interiorDot_mem hdot
      have hget : (splitOnAt email.data).get? 1 = some dom := by rw [hsplit]; rfl
      have hex : extractDomain email = some (String.mk (dom.map Char.toLower)) := by
        unfold extractDomain
        rw [hget]
        rfl
      have hmapmem : '.' ∈ dom.map Char.toLower :=
        List.mem_map.mpr ⟨'.', hdotmem, by decide⟩
      have hdne : String.mk (dom.map Char.toLower) ≠ "" := by
        intro hcon
        have hnil : dom.map Char.toLower = [] := congrArg String.data hcon
        rw [hnil] at hmapmem
        exact absurd hmapmem (List.not_mem_nil '.')
      have hdotinc : jsIncludes (String.mk (dom.map Char.toLower)) "." = true := by
        show charsInfix ['.'] (dom.map Char.toLower) = true
        exact (charsInfix_singleton_iff '.' _).mpr hmapmem
      constructor
      · unfold validateEmail
        rw [if_neg h0]
        simp only [h1, Bool.not_true, Bool.false_eq_true, if_false, hex, hdne,
          reduceIte, hdotinc]
        intro hmem
        rw [List.append_nil] at hmem
        rcases List.mem_append.mp hmem with hm | hm <;> revert hm <;> split <;>
          simp [disposableMsg, testDomainMsg]
      · intro _ d hd
        rw [hex] at hd
        cases hd
        exact List.elem_eq_true_of_mem hmapmem
    · have h1f : emailRegexTest email = false := by
        cases hb : emailRegexTest email
        · rfl
        · exact absurd hb h1
      refine ⟨?_, fun h => absurd h h1⟩
      unfold validateEmail
      rw [if_neg h0]
      simp [h1f]

/-- Witness for C10 at a concrete regex-passing email. -/
theorem C10_missing_dot_unreachable_witness :
    "Email domain is invalid" ∉ (validateEmail "a@b.com").errors ∧
    ("b.com" : String).data.contains '.' = true := by
  have h := C10_missing_dot_unreachable "a@b.com"
  exact ⟨h.1, h.2 (by decide) "b.com" (by decide)⟩

/-- C4 counterexample: with the empty local part, the address
`"@tempmail.com"` fails the format regex and `validateEmail` returns
early with only the format error, so the disposable-domain message is
absent even though the domain is in the disposable set. -/
theorem C4_counterexample :
    "tempmail.com" ∈ DISPOSABLE_DOMAINS ∧
    validateEmail ("" ++ "@" ++ "tempmail.com") =
      { isValid := false, errors := ["Invalid email format"] } ∧
    disposableMsg ∉ (validateEmail ("" ++ "@" ++ "tempmail.com")).errors := by
  decide

/-- Core of C4 for any domain satisfying the decidable side facts. -/
theorem validateEmail_disposable_core (L D : String) (hL : L ≠ "")
    (hok : L.data.all okEmailChar = true)
    (h1 : D.data.all okEmailChar = true) (h2 : hasInteriorDot D.data = true)
    (h3 : D.data.map Char.toLower = D.data)
    (h4 : DISPOSABLE_DOMAINS.contains D = true) :
    (validateEmail (L ++ "@" ++ D)).isValid = false ∧
    disposableMsg ∈ (validateEmail (L ++ "@" ++ D)).errors := by
  have hLa : '@' ∉ L.data := by
    intro hm
    have hh := List.all_eq_true.mp hok _ hm
    simp [okEmailChar] at hh
  have hDa : '@' ∉ D.data := by
    intro hm
    have hh := List.all_eq_true.mp h1 _ hm
    simp [okEmailChar] at hh
  have hat : ("@" : String).data = ['@'] := rfl
  have hdata : (L ++ "@" ++ D).data = L.data ++ '@' :: D.data := by
    simp [String.data_append, hat]
  have hdataL : L.data ≠ [] := by
    intro hnil
    apply hL
    cases L with
    | mk d => exact congrArg String.mk hnil
  have hsplit : splitOnAt (L ++ "@" ++ D).data = [L.data, D.data] := by
    rw [hdata]
    exact splitOnAt_single hLa hDa
  have hne : (L ++ "@" ++ D) ≠ "" := by
    intro hcon
    have hd := congrArg String.data hcon
    rw [hdata] at hd
    simp at hd
  have hie : L.data.isEmpty = false := by
    cases hd : L.data with
    | nil => exact absurd hd hdataL
    | cons a l => rfl
  have hreg : emailRegexTest (L ++ "@" ++ D) = true := by
    unfold emailRegexTest
    rw [hsplit]
    simp [hie, hok, h1, h2]
  have hget : (splitOnAt (L ++ "@" ++ D).data).get? 1 = some D.data := by
    rw [hsplit]; rfl
  have hex : extractDomain (L ++ "@" ++ D) = some D := by
    unfold extractDomain
    rw [hget]
    show some (String.mk (D.data.map Char.toLower)) = some D
    rw [h3]
  have hDne : D ≠ "" := by
    intro hcon
    subst hcon
    exact absurd h2 (by decide)
  unfold validateEmail
  rw [if_neg hne]
  simp only [hreg, Bool.not_true, Bool.false_eq_true, if_false, hex, hDne, reduceIte,
    h4, if_true]
  constructor
  · simp
  · simp

/-- C4 (amended): for every nonempty local part consisting of
characters admitted by the format regex (no whitespace, no `'@'`) and
every domain in the disposable set, `validateEmail` rejects the
address with the disposable-domain error among its errors. -/
theorem C4_disposable_rejected (L D : String) (hL : L ≠ "")
    (hok : L.data.all okEmailChar = true) (hD : D ∈ DISPOSABLE_DOMAINS) :
    (validateEmail (L ++ "@" ++ D)).isValid = false ∧
    disposableMsg ∈ (validateEmail (L ++ "@" ++ D)).errors := by
  fin_cases hD <;>
    exact validateEmail_disposable_core L _ hL hok (by decide) (by decide)
      (by decide) (by decide)

/-- Witness for C4 at a concrete local part and disposable domain. -/
theorem C4_disposable_rejected_witness :
    (validateEmail ("alice" ++ "@" ++ "tempmail.com")).isValid = false ∧
    disposableMsg ∈ (validateEmail ("alice" ++ "@" ++ "tempmail.com")).errors := by
  exact C4_disposable_rejected "alice" "tempmail.com" (by decide) (by decide)
    (by decide)

end HippoSync
